import Mathlib

/-!
Verification of the FINTEL AI anomaly-detection engine
(`AI-Agent/ml_trainer.py`, class `FintelMLTrainer`).

The Python code is shallowly embedded over exact rationals (ℚ stands for
the IEEE floats of the source; all arithmetic the claims mention is
exact in the source up to rounding).  Randomness is embedded as an
explicit stream `g : ℕ → ℚ` of primitive unit-interval draws: each call
to `random.random()`, `random.uniform`, `random.randint` or
`random.choice` consumes exactly one draw, in program order.  The
transcendental `np.log1p` is an uninterpreted parameter: no claim
depends on its value.
-/

/-- CPython `random.uniform(a, b)` is `a + (b - a) * random()` with
`random() ∈ [0,1)`; the unit draw is the argument `u`. -/
def pyUniform (a b u : ℚ) : ℚ := a + (b - a) * u

/-- CPython `random.randint(a, b)` draws an integer uniformly from the
inclusive range `[a, b]`; embedded as `a + ⌊u * (b - a + 1)⌋` for a unit
draw `u ∈ [0,1)`. -/
def pyRandInt (a b : ℤ) (u : ℚ) : ℤ := a + ⌊u * ((b : ℚ) - (a : ℚ) + 1)⌋

/-- CPython `random.choice(seq)` picks index `⌊u * len(seq)⌋` for a unit
draw `u ∈ [0,1)`. -/
def pyChoiceIdx (len : ℕ) (u : ℚ) : ℕ := (⌊u * (len : ℚ)⌋).toNat

/-- Python `a % n` on non-negative floats: `a - n * ⌊a / n⌋`. -/
def pyMod (a n : ℚ) : ℚ := a - n * ⌊a / n⌋

/-- The four anomaly archetypes of `_generate_anomalous_invoice`
(`random.choice(['round_amount', 'high_amount', 'weekend',
'suspicious_pattern'])`). -/
inductive AnomalyType where
  | round_amount
  | high_amount
  | weekend
  | suspicious_pattern
deriving DecidableEq

/-- Which archetype `random.choice` selects for the unit draw `u`:
index 0 is `round_amount`, 1 is `high_amount`, 2 is `weekend`,
3 is `suspicious_pattern`. -/
def anomalyTypeOf (u : ℚ) : AnomalyType :=
  if pyChoiceIdx 4 u = 0 then .round_amount
  else if pyChoiceIdx 4 u = 1 then .high_amount
  else if pyChoiceIdx 4 u = 2 then .weekend
  else .suspicious_pattern

/-- The fixed list of perfectly round amounts used by the
`round_amount` archetype. -/
def roundAmounts : List ℚ := [10000, 15000, 20000, 25000, 50000, 75000, 100000]

/-- `FintelMLTrainer._generate_normal_invoice`: amount is
`uniform(5000, 50000)` plus noise `uniform(-500, 500)`; the remaining
five dimensions are integer draws over their stated domains.  The seven
unit draws `u1 .. u7` are consumed in program order. -/
def _generate_normal_invoice (log1p : ℚ → ℚ) (u1 u2 u3 u4 u5 u6 u7 : ℚ) : List ℚ :=
  let amount0 := pyUniform 5000 50000 u1
  let amount := amount0 + pyUniform (-500) 500 u2
  [amount,
   log1p amount,
   pyMod amount 1000,
   ((pyRandInt 0 6 u3 : ℤ) : ℚ),
   ((pyRandInt 1 28 u4 : ℤ) : ℚ),
   ((pyRandInt 1 12 u5 : ℤ) : ℚ),
   ((pyRandInt 8 15 u6 : ℤ) : ℚ),
   ((pyRandInt 5 10 u7 : ℤ) : ℚ)]

/-- `FintelMLTrainer._generate_anomalous_invoice`: draw an archetype
(`u1`), draw the amount for that archetype (`u2`: `random.choice` over
`roundAmounts` for `round_amount`, otherwise one `random.uniform`),
then derive the remaining five dimensions exactly as in the normal
case (`u3 .. u7`). -/
def _generate_anomalous_invoice (log1p : ℚ → ℚ) (u1 u2 u3 u4 u5 u6 u7 : ℚ) : List ℚ :=
  let amount : ℚ :=
    match anomalyTypeOf u1 with
    | .round_amount => roundAmounts.getD (pyChoiceIdx roundAmounts.length u2) 0
    | .high_amount => pyUniform 100000 500000 u2
    | .weekend => pyUniform 10000 30000 u2
    | .suspicious_pattern => pyUniform 8000 40000 u2
  [amount,
   log1p amount,
   pyMod amount 1000,
   ((pyRandInt 0 6 u3 : ℤ) : ℚ),
   ((pyRandInt 1 28 u4 : ℤ) : ℚ),
   ((pyRandInt 1 12 u5 : ℤ) : ℚ),
   ((pyRandInt 8 15 u6 : ℤ) : ℚ),
   ((pyRandInt 5 10 u7 : ℤ) : ℚ)]

/-- One iteration of the loop body of
`FintelMLTrainer.generate_training_data`: the class draw `g k`
(`random.random() < 0.8` selects the normal class, label 0; otherwise
the anomalous class, label 1), then the seven invoice draws
`g (k+1) .. g (k+7)`.  Both branches consume exactly eight draws. -/
def genSampleAt (log1p : ℚ → ℚ) (g : ℕ → ℚ) (k : ℕ) : List ℚ × ℤ :=
  if g k < 4/5 then
    (_generate_normal_invoice log1p (g (k+1)) (g (k+2)) (g (k+3)) (g (k+4))
      (g (k+5)) (g (k+6)) (g (k+7)), 0)
  else
    (_generate_anomalous_invoice log1p (g (k+1)) (g (k+2)) (g (k+3)) (g (k+4))
      (g (k+5)) (g (k+6)) (g (k+7)), 1)

/-- The `for i in range(num_samples)` loop of `generate_training_data`,
started at draw index `k`. -/
def genLoop (log1p : ℚ → ℚ) (g : ℕ → ℚ) : ℕ → ℕ → List (List ℚ) × List ℤ
  | _, 0 => ([], [])
  | k, n + 1 =>
    let s := genSampleAt log1p g k
    let rest := genLoop log1p g (k + 8) n
    (s.1 :: rest.1, s.2 :: rest.2)

/-- `FintelMLTrainer.generate_training_data(num_samples)`: returns the
list of feature vectors and the parallel list of labels
(0 = normal, 1 = anomaly). -/
def generate_training_data (log1p : ℚ → ℚ) (g : ℕ → ℚ) (num_samples : ℕ) :
    List (List ℚ) × List ℤ :=
  genLoop log1p g 0 num_samples

/-- A fitted `sklearn.preprocessing.StandardScaler`: one `(mean, scale)`
pair per feature dimension, where `scale` is the square root of the
per-dimension population variance computed by `fit`.  `transform`
applies `(x - mean) / scale` per dimension and, as in sklearn, is only
defined when the input arity matches the fitted arity (a mismatch
raises, embedded as `none`). -/
structure StandardScaler where
  params : List (ℚ × ℚ)
deriving DecidableEq

def StandardScaler.transform (sc : StandardScaler) (v : List ℚ) : Option (List ℚ) :=
  if v.length = sc.params.length then
    some (List.zipWith (fun x p => (x - p.1) / p.2) v sc.params)
  else
    none

/-- A fitted `sklearn.ensemble.IsolationForest`, abstracted by its two
observable per-row functions: `predict` (returns -1 for an outlier,
1 for an inlier) and `decision_function` (continuous anomaly score,
lower = more anomalous).  The fitted forest is opaque state; only these
functions are consumed by `ml_trainer.py`. -/
structure IsoForest where
  predictOne : List ℚ → ℤ
  decisionOne : List ℚ → ℚ

/-- The mutable state of a `FintelMLTrainer` instance: the `models`
dict (name to fitted model), the scaler (`none` while unfitted), and
the `is_trained` flag. -/
structure FintelMLTrainer where
  models : List (String × IsoForest)
  scaler : Option StandardScaler
  is_trained : Bool

/-- `FintelMLTrainer.__init__`: empty models dict, unfitted scaler,
`is_trained = False`. -/
def freshTrainer : FintelMLTrainer := ⟨[], none, false⟩

/-- Outcome of `predict_anomaly`: the `{"error": msg}` dict returned on
an untrained engine, an uncaught Python exception (`fault`), or the
result dict with its four keys. -/
inductive PredictOutcome where
  | errorDict (msg : String)
  | fault
  | ok (is_anomaly : Bool) (anomaly_score : ℚ) (confidence : ℚ) (method : String)
deriving DecidableEq

/-- `FintelMLTrainer.predict_anomaly(invoice_features)`: return the
error dict when untrained; otherwise scale the single vector with the
fitted scaler and apply the isolation forest.  An unfitted scaler, an
arity mismatch, or a missing `'isolation_forest'` key would raise in
Python, embedded as `fault`. -/
def predict_anomaly (self : FintelMLTrainer) (invoice_features : List ℚ) : PredictOutcome :=
  if self.is_trained = false then .errorDict "Models not trained yet!"
  else
    match self.scaler with
    | none => .fault
    | some sc =>
      match sc.transform invoice_features with
      | none => .fault
      | some features_scaled =>
        match self.models.lookup "isolation_forest" with
        | none => .fault
        | some forest =>
          let iso_pred := forest.predictOne features_scaled
          let anomaly_score := forest.decisionOne features_scaled
          .ok (iso_pred == -1) anomaly_score (|anomaly_score| * 100)
            "trained_isolation_forest"

/-- The conversion `np.where(iso_pred == -1, 1, 0)` of
`_evaluate_models`: native decision -1 (outlier) becomes label 1
(anomaly), anything else becomes label 0 (normal). -/
def convertPred (p : ℤ) : ℤ := if p = -1 then 1 else 0

/-- The accuracy value printed by `FintelMLTrainer._evaluate_models`:
`np.mean(iso_pred == y_test)` after the `np.where` conversion, i.e. the
mean of the elementwise-equality indicator array. -/
def evalAccuracy (forest : IsoForest) (xtest : List (List ℚ)) (ytest : List ℤ) : ℚ :=
  let iso_pred := xtest.map (fun x => convertPred (forest.predictOne x))
  let eqArr := List.zipWith (fun p y => if p = y then (1 : ℚ) else 0) iso_pred ytest
  eqArr.sum / eqArr.length

/-- The pickled model bundle written by `save_models`: the models dict,
the scaler, the `is_trained` flag and the `trained_at` timestamp. -/
structure ModelBundle where
  models : List (String × IsoForest)
  scaler : Option StandardScaler
  is_trained : Bool
  trained_at : String

/-- A file on disk is either a valid pickle of a `ModelBundle` or some
other/corrupted content on which `pickle.load` (or the subsequent dict
indexing) raises. -/
inductive Artifact where
  | valid (bundle : ModelBundle)
  | corrupt

/-- The file system, as a map from path to artifact; a missing key is a
missing file (`open` raises `FileNotFoundError`). -/
def FileStore := List (String × Artifact)

/-- `FintelMLTrainer.save_models(filepath)`: pickle the bundle built
from the current fields plus `datetime.now().isoformat()` (passed here
as the external input `now`) and write it at `filepath`. -/
def save_models (self : FintelMLTrainer) (now : String) (filepath : String)
    (fs : FileStore) : FileStore :=
  (filepath, Artifact.valid ⟨self.models, self.scaler, self.is_trained, now⟩) :: fs

/-- Outcome of `load_models`: a normal return (the boolean result and
the engine state after the call), or an uncaught exception escaping the
method. -/
inductive LoadOutcome where
  | ret (result : Bool) (state : FintelMLTrainer)
  | exn

/-- `FintelMLTrainer.load_models(filepath)`: a missing file raises
`FileNotFoundError`, which the `except` clause converts to `False`
with no field assigned; a present but invalid artifact raises an
exception the method does not catch; a valid bundle is loaded into
`models`, `scaler` and `is_trained` and `True` is returned. -/
def load_models (self : FintelMLTrainer) (filepath : String) (fs : FileStore) :
    LoadOutcome :=
  match List.lookup filepath fs with
  | none => .ret false self
  | some .corrupt => .exn
  | some (.valid b) => .ret true ⟨b.models, b.scaler, b.is_trained⟩

/-- Extract column `j` of a sample matrix (row-major, as the numpy
array passed to `StandardScaler.fit`). -/
def column (X : List (List ℚ)) (j : ℕ) : List ℚ := X.map (fun row => row.getD j 0)

/-- Per-column mean, as computed by `StandardScaler.fit`. -/
def colMean (col : List ℚ) : ℚ := col.sum / col.length

/-- Per-column population variance (`ddof = 0`), as computed by
`StandardScaler.fit`; the stored `scale_` is its square root. -/
def colVar (col : List ℚ) : ℚ :=
  (col.map (fun x => (x - colMean col) ^ 2)).sum / col.length

/-- Standardize one column with the fitted mean of that column and a
scale `s` (in `sklearn`, `s = sqrt (colVar col)`); this is what
`scaler.fit_transform(X_train)` in `train_models` computes
column-wise. -/
def standardizeCol (col : List ℚ) (s : ℚ) : List ℚ :=
  col.map (fun x => (x - colMean col) / s)

/-- A concrete fitted forest used to instantiate theorems: flags a
vector as an outlier exactly when its first scaled coordinate is
negative. -/
def demoForest : IsoForest :=
  ⟨fun x => if x.getD 0 0 < 0 then -1 else 1, fun x => x.getD 0 0⟩

/-- A concrete identity scaler over the 8-dimension feature space. -/
def demoScaler : StandardScaler :=
  ⟨[(0, 1), (0, 1), (0, 1), (0, 1), (0, 1), (0, 1), (0, 1), (0, 1)]⟩

/-- A concrete trained engine state. -/
def demoTrainer : FintelMLTrainer :=
  ⟨[("isolation_forest", demoForest)], some demoScaler, true⟩

/-- The normal-invoice test vector from the demo `main` of
`ml_trainer.py` (its log1p entry rounded; the value is irrelevant). -/
def demoVec : List ℚ := [15000, 9, 250, 2, 15, 10, 11, 7]

/-- Claim C1: on a freshly constructed engine, on which `train_models`
has not run and no model has been loaded, `predict_anomaly` on any
8-dimension feature vector returns the distinct untrained error dict
and never an `ok` result carrying a score or verdict. -/
theorem predict_before_train_fails (v : List ℚ) (b : Bool) (s c : ℚ) (mth : String)
    (hv : v.length = 8) :
    predict_anomaly freshTrainer v = .errorDict "Models not trained yet!" ∧
    predict_anomaly freshTrainer v ≠ .ok b s c mth := by
  constructor
  · rfl
  · simp [predict_anomaly, freshTrainer]

/-- Witness for C1 at the demo vector. -/
theorem predict_before_train_fails_witness :
    predict_anomaly freshTrainer demoVec = .errorDict "Models not trained yet!" ∧
    predict_anomaly freshTrainer demoVec ≠ .ok false 0 0 "trained_isolation_forest" :=
  predict_before_train_fails demoVec false 0 0 "trained_isolation_forest" rfl

/-- Claim C2: saving a trained engine and loading the artifact into a
fresh engine returns `True` and yields a state whose `predict_anomaly`
output equals the original engine's output on every fixed 8-dimension
input vector. -/
theorem save_load_roundtrip_preserves_predict (self : FintelMLTrainer)
    (now filepath : String) (fs : FileStore) (v : List ℚ)
    (htr : self.is_trained = true) (hv : v.length = 8) :
    ∃ st, load_models freshTrainer filepath (save_models self now filepath fs) =
        .ret true st ∧
      predict_anomaly st v = predict_anomaly self v := by
  refine ⟨self, ?_, rfl⟩
  simp [load_models, save_models, List.lookup]

/-- Witness for C2: round-trip of the demo trained engine through an
empty file store, compared at the demo vector. -/
theorem save_load_roundtrip_preserves_predict_witness :
    ∃ st, load_models freshTrainer "fintel_models.pkl"
        (save_models demoTrainer "2026-10-12T00:00:00" "fintel_models.pkl" []) =
        .ret true st ∧
      predict_anomaly st demoVec = predict_anomaly demoTrainer demoVec :=
  save_load_roundtrip_preserves_predict demoTrainer "2026-10-12T00:00:00"
    "fintel_models.pkl" [] demoVec rfl rfl

/-- Claim C3 counterexample: a present but corrupt artifact makes
`load_models` raise an uncaught exception (only `FileNotFoundError` is
handled), not return a structured failure result. -/
theorem load_corrupt_artifact_raises :
    load_models freshTrainer "fintel_models.pkl"
      [("fintel_models.pkl", Artifact.corrupt)] = .exn := by
  simp [load_models, List.lookup]

/-- Claim C3 (amended): a missing artifact is converted to the
structured result `False` with the engine untouched, while a corrupt
artifact raises an unstructured exception out of `load_models`. -/
theorem load_failure_structure (self : FintelMLTrainer) (filepath : String)
    (fs fs' : FileStore) (habs : List.lookup filepath fs = none)
    (hcor : List.lookup filepath fs' = some Artifact.corrupt) :
    load_models self filepath fs = .ret false self ∧
    load_models self filepath fs' = .exn := by
  constructor
  · simp [load_models, habs]
  · simp [load_models, hcor]

/-- Witness for the amended C3: empty store versus a store holding a
corrupt artifact at the default path. -/
theorem load_failure_structure_witness :
    load_models freshTrainer "fintel_models.pkl" [] = .ret false freshTrainer ∧
    load_models freshTrainer "fintel_models.pkl"
      [("fintel_models.pkl", Artifact.corrupt)] = .exn :=
  load_failure_structure freshTrainer "fintel_models.pkl" []
    [("fintel_models.pkl", Artifact.corrupt)] rfl (by simp [List.lookup])

/-- Claim C10: when no artifact exists at the path, `load_models`
returns `False` and the resulting state keeps `models`, `scaler` and
`is_trained` exactly as before the call. -/
theorem load_missing_artifact_atomic (self : FintelMLTrainer) (filepath : String)
    (fs : FileStore) (h : List.lookup filepath fs = none) :
    ∃ st, load_models self filepath fs = .ret false st ∧
      st.models = self.models ∧ st.scaler = self.scaler ∧
      st.is_trained = self.is_trained :=
  ⟨self, by simp [load_models, h], rfl, rfl, rfl⟩

/-- Claim C4: on a trained engine, `predict_anomaly` returns the result
dict whose `is_anomaly` holds exactly when the forest decision is -1,
whose `anomaly_score` is the continuous decision-function value, whose
`confidence` is the absolute anomaly score times 100, and whose
`method` is the fixed tag. -/
theorem predict_trained_contract (self : FintelMLTrainer) (sc : StandardScaler)
    (forest : IsoForest) (v w : List ℚ) (htr : self.is_trained = true)
    (hsc : self.scaler = some sc)
    (hm : List.lookup "isolation_forest" self.models = some forest)
    (hv : v.length = 8) (hw : sc.transform v = some w) :
    predict_anomaly self v =
      .ok (forest.predictOne w == -1) (forest.decisionOne w)
        (|forest.decisionOne w| * 100) "trained_isolation_forest" ∧
    ((forest.predictOne w == -1) = true ↔ forest.predictOne w = -1) := by
  constructor
  · simp [predict_anomaly, htr, hsc, hw, hm]
  · exact beq_iff_eq

/-- Witness for C4 at the demo trained engine and demo vector (the
identity scaler sends the vector to itself). -/
theorem predict_trained_contract_witness :
    predict_anomaly demoTrainer demoVec =
      .ok (demoForest.predictOne demoVec == -1) (demoForest.decisionOne demoVec)
        (|demoForest.decisionOne demoVec| * 100) "trained_isolation_forest" ∧
    ((demoForest.predictOne demoVec == -1) = true ↔ demoForest.predictOne demoVec = -1) :=
  predict_trained_contract demoTrainer demoScaler demoForest demoVec demoVec rfl rfl
    (by simp [demoTrainer, List.lookup])
    rfl (by norm_num [StandardScaler.transform, demoScaler, demoVec])

/-- Sum of the elementwise-equality indicator array equals the number
of positions where the two lists agree. -/
theorem sumIndicator_eq_countP : ∀ (ps ys : List ℤ),
    (List.zipWith (fun p y => if p = y then (1 : ℚ) else 0) ps ys).sum =
      ((ps.zip ys).countP (fun pr => pr.1 == pr.2) : ℕ) := by
  intro ps
  induction ps with
  | nil => intro ys; simp
  | cons p pt ih =>
    intro ys
    cases ys with
    | nil => simp
    | cons y yt =>
      simp only [List.zipWith_cons_cons, List.sum_cons, List.zip_cons_cons,
        List.countP_cons, ih yt]
      by_cases h : p = y
      · simp [h, add_comm]
      · simp [h]

/-- Claim C5: the evaluator converts the native decision -1 to label 1
and 1 to label 0, and the reported accuracy is the fraction of test
samples on which the converted prediction equals the ground-truth
label. -/
theorem evaluator_accuracy_spec (forest : IsoForest) (xtest : List (List ℚ))
    (ytest : List ℤ) (h : xtest.length = ytest.length) :
    convertPred (-1) = 1 ∧ convertPred 1 = 0 ∧
    evalAccuracy forest xtest ytest =
      (((xtest.map (fun x => convertPred (forest.predictOne x))).zip ytest).countP
          (fun pr => pr.1 == pr.2) : ℕ) / (ytest.length : ℚ) := by
  refine ⟨rfl, rfl, ?_⟩
  show (List.zipWith (fun p y => if p = y then (1 : ℚ) else 0)
      (xtest.map (fun x => convertPred (forest.predictOne x))) ytest).sum /
      ((List.zipWith (fun p y => if p = y then (1 : ℚ) else 0)
        (xtest.map (fun x => convertPred (forest.predictOne x))) ytest).length : ℚ) = _
  rw [sumIndicator_eq_countP]
  congr 1
  simp [List.length_zipWith, h]

/-- Witness for C5: a two-sample test split on which the demo forest
flags exactly the first sample. -/
theorem evaluator_accuracy_spec_witness :
    convertPred (-1) = 1 ∧ convertPred 1 = 0 ∧
    evalAccuracy demoForest [[-1], [1]] [1, 1] =
      ((([[-1], [1]].map (fun x => convertPred (demoForest.predictOne x))).zip
          [1, 1]).countP (fun pr => pr.1 == pr.2) : ℕ) / (([1, 1] : List ℤ).length : ℚ) :=
  evaluator_accuracy_spec demoForest [[-1], [1]] [1, 1] rfl

/-- Loop invariant for `generate_training_data` started at draw index
`k`: it emits `n` feature vectors, and the label of sample `i` is
decided solely by the class draw `g (k + 8 * i)` against the 0.8
threshold (each sample consumes exactly eight primitive draws). -/
theorem genLoop_spec (log1p : ℚ → ℚ) (g : ℕ → ℚ) :
    ∀ (n k : ℕ), (genLoop log1p g k n).1.length = n ∧
      (genLoop log1p g k n).2 =
        (List.range n).map (fun i => if g (k + 8 * i) < 4/5 then (0 : ℤ) else 1) := by
  intro n
  induction n with
  | zero => intro k; exact ⟨rfl, rfl⟩
  | succ n ih =>
    intro k
    refine ⟨?_, ?_⟩
    · simpa [genLoop] using (ih (k + 8)).1
    · show (genSampleAt log1p g k).2 :: (genLoop log1p g (k + 8) n).2 = _
      rw [(ih (k + 8)).2, List.range_succ_eq_map, List.map_cons, List.map_map]
      refine congrArg₂ List.cons ?_ ?_
      · by_cases hc : g k < 4/5 <;> simp [genSampleAt, hc]
      · refine List.map_congr_left ?_
        intro i _
        simp only [Function.comp]
        have hidx : k + 8 + 8 * i = k + 8 * Nat.succ i := by omega
        rw [hidx]

/-- Claim C6: `generate_training_data` returns features and labels both
of length `num_samples`, and the class of each sample `i` is an
independent Bernoulli draw — label 1 (anomaly) exactly when that
sample's own unit draw falls in the top 0.2 of the unit interval — not
an exact class count. -/
theorem generate_lengths_and_bernoulli (log1p : ℚ → ℚ) (g : ℕ → ℚ)
    (num_samples : ℕ) :
    (generate_training_data log1p g num_samples).1.length = num_samples ∧
    (generate_training_data log1p g num_samples).2.length = num_samples ∧
    (generate_training_data log1p g num_samples).2 =
      (List.range num_samples).map
        (fun i => if g (8 * i) < 4/5 then (0 : ℤ) else 1) := by
  have h := genLoop_spec log1p g num_samples 0
  have hgen : generate_training_data log1p g num_samples =
      genLoop log1p g 0 num_samples := rfl
  refine ⟨by rw [hgen]; exact h.1, ?_, ?_⟩
  · rw [hgen, h.2]; simp
  · rw [hgen, h.2]
    refine List.map_congr_left ?_
    intro i _
    simp

/-- Claim C7: for unit draws in `[0,1)`, a normal-class sample's raw
amount (dimension 0) lies in `[4500, 50500]`, and an anomalous sample
of the `high_amount` archetype has its raw amount in
`[100000, 500000]`. -/
theorem generated_amount_ranges (log1p : ℚ → ℚ)
    (u1 u2 u3 u4 u5 u6 u7 uA v2 v3 v4 v5 v6 v7 : ℚ)
    (hu1 : 0 ≤ u1) (hu1' : u1 < 1) (hu2 : 0 ≤ u2) (hu2' : u2 < 1)
    (hv2 : 0 ≤ v2) (hv2' : v2 < 1)
    (harch : anomalyTypeOf uA = AnomalyType.high_amount) :
    (4500 ≤ (_generate_normal_invoice log1p u1 u2 u3 u4 u5 u6 u7).getD 0 0 ∧
      (_generate_normal_invoice log1p u1 u2 u3 u4 u5 u6 u7).getD 0 0 ≤ 50500) ∧
    (100000 ≤ (_generate_anomalous_invoice log1p uA v2 v3 v4 v5 v6 v7).getD 0 0 ∧
      (_generate_anomalous_invoice log1p uA v2 v3 v4 v5 v6 v7).getD 0 0 ≤ 500000) := by
  have hn : (_generate_normal_invoice log1p u1 u2 u3 u4 u5 u6 u7).getD 0 0 =
      pyUniform 5000 50000 u1 + pyUniform (-500) 500 u2 := rfl
  have ha : (_generate_anomalous_invoice log1p uA v2 v3 v4 v5 v6 v7).getD 0 0 =
      pyUniform 100000 500000 v2 := by
    simp [_generate_anomalous_invoice, harch]
  constructor
  · rw [hn]
    unfold pyUniform
    constructor <;> nlinarith
  · rw [ha]
    unfold pyUniform
    constructor <;> nlinarith

/-- Witness for C7: zero draws for the normal sample (amount 4500) and
archetype draw 1/4 with zero amount draw for the anomalous sample
(amount 100000). -/
theorem generated_amount_ranges_witness :
    (4500 ≤ (_generate_normal_invoice (fun _ => 0) 0 0 0 0 0 0 0).getD 0 0 ∧
      (_generate_normal_invoice (fun _ => 0) 0 0 0 0 0 0 0).getD 0 0 ≤ 50500) ∧
    (100000 ≤ (_generate_anomalous_invoice (fun _ => 0) (1/4) 0 0 0 0 0 0).getD 0 0 ∧
      (_generate_anomalous_invoice (fun _ => 0) (1/4) 0 0 0 0 0 0).getD 0 0 ≤ 500000) :=
  generated_amount_ranges (fun _ => 0) 0 0 0 0 0 0 0 (1/4) 0 0 0 0 0 0
    le_rfl (by norm_num) le_rfl (by norm_num) le_rfl (by norm_num)
    (by norm_num [anomalyTypeOf, pyChoiceIdx])

/-- Claim C8, evaluated at a failing input: the archetype draw 1/2
selects the `weekend` archetype, yet the generated sample's day-of-week
dimension (index 3) is 2 — a weekday under either weekend convention —
because the code draws `randint(0, 6)` exactly as in the normal case
and never restricts it to weekend days. -/
theorem weekend_archetype_weekday_eval :
    anomalyTypeOf (1/2) = AnomalyType.weekend ∧
    (_generate_anomalous_invoice (fun _ => 0) (1/2) (1/2) (1/3) 0 0 0 0).getD 3 0 = 2 := by
  have harch : anomalyTypeOf (1/2) = AnomalyType.weekend := by
    norm_num [anomalyTypeOf, pyChoiceIdx]
    decide
  refine ⟨harch, ?_⟩
  simp [_generate_anomalous_invoice, harch]
  norm_num [pyRandInt]

/-- Sum of an affinely transformed column: subtracting `m` and dividing
by `s` pointwise. -/
theorem sum_map_sub_div (col : List ℚ) (m s : ℚ) :
    (col.map (fun x => (x - m) / s)).sum = (col.sum - col.length * m) / s := by
  induction col with
  | nil => simp
  | cons a t ih =>
    simp only [List.map_cons, List.sum_cons, ih, List.length_cons]
    push_cast
    ring

/-- Sum of a column divided pointwise by a constant. -/
theorem sum_map_div (col : List ℚ) (f : ℚ → ℚ) (c : ℚ) :
    (col.map (fun x => f x / c)).sum = (col.map f).sum / c := by
  induction col with
  | nil => simp
  | cons a t ih => simp [ih, add_div]

/-- Standardizing a nonempty column zeroes its mean (for any scale). -/
theorem standardize_mean_zero (col : List ℚ) (s : ℚ) (hne : col ≠ []) :
    colMean (standardizeCol col s) = 0 := by
  have hn : (col.length : ℚ) ≠ 0 := by
    simpa using hne
  unfold colMean standardizeCol
  rw [List.length_map, sum_map_sub_div]
  unfold colMean
  rw [mul_comm, div_mul_cancel₀ _ hn, sub_self, zero_div, zero_div]

/-- Standardizing a nonempty column by a scale whose square is the
column's population variance yields population variance 1. -/
theorem standardize_var_one (col : List ℚ) (s : ℚ) (hne : col ≠ [])
    (hv : colVar col ≠ 0) (hs : s ^ 2 = colVar col) :
    colVar (standardizeCol col s) = 1 := by
  have hn : (col.length : ℚ) ≠ 0 := by
    simpa using hne
  have hmean := standardize_mean_zero col s hne
  unfold colVar
  rw [hmean]
  unfold standardizeCol
  rw [List.length_map, List.map_map]
  have hpt : ((fun x => (x - 0) ^ 2) ∘ fun x => (x - colMean col) / s) =
      fun x => (x - colMean col) ^ 2 / s ^ 2 := by
    funext x
    simp [Function.comp, div_pow]
  rw [hpt, hs, sum_map_div]
  have hnum : (col.map (fun x => (x - colMean col) ^ 2)).sum =
      colVar col * col.length := by
    unfold colVar
    rw [div_mul_cancel₀ _ hn]
  rw [hnum, mul_comm, mul_div_assoc, div_self hv, mul_one, div_self hn]

/-- Claim C9: fitting the scaler on a nonempty training set and
transforming that same set standardizes every dimension of nonzero
variance — the transformed column has mean exactly 0 and standard
deviation exactly 1 (its population variance is 1 and the scale `s`
used by the transform is the nonnegative square root of the fitted
variance). -/
theorem scaler_roundtrip_standardizes (X : List (List ℚ)) (j : ℕ) (s : ℚ)
    (hne : X ≠ []) (hv : colVar (column X j) ≠ 0)
    (hs : s ^ 2 = colVar (column X j)) :
    colMean (standardizeCol (column X j) s) = 0 ∧
    colVar (standardizeCol (column X j) s) = 1 := by
  have hcol : column X j ≠ [] := by
    unfold column
    simpa using hne
  exact ⟨standardize_mean_zero _ _ hcol, standardize_var_one _ _ hcol hv hs⟩

/-- A concrete two-sample training matrix whose every column has mean 1
and population variance 1. -/
def demoMatrix : List (List ℚ) :=
  [[0, 0, 0, 0, 0, 0, 0, 0], [2, 2, 2, 2, 2, 2, 2, 2]]

/-- Witness for C9 on the demo matrix, first dimension, scale 1. -/
theorem scaler_roundtrip_standardizes_witness :
    colMean (standardizeCol (column demoMatrix 0) 1) = 0 ∧
    colVar (standardizeCol (column demoMatrix 0) 1) = 1 :=
  scaler_roundtrip_standardizes demoMatrix 0 1 (by simp [demoMatrix])
    (by norm_num [demoMatrix, column, colVar, colMean])
    (by norm_num [demoMatrix, column, colVar, colMean])

/-- Witness for C10: the demo trained engine and an empty file store. -/
theorem load_missing_artifact_atomic_witness :
    ∃ st, load_models demoTrainer "fintel_models.pkl" [] = .ret false st ∧
      st.models = demoTrainer.models ∧ st.scaler = demoTrainer.scaler ∧
      st.is_trained = demoTrainer.is_trained :=
  load_missing_artifact_atomic demoTrainer "fintel_models.pkl" [] rfl
